import Mathlib

/-!
Shallow embedding of the failure-detection / reconnect / pool-reconciliation
supervisor of `firehose.go` (package `firehosePool`).

Timestamps and durations are modelled as `Int` nanoseconds (Go's
`time.Duration` unit).  Worker clients, sessions and stream descriptors are
opaque to the supervisor, so they are modelled as `Nat` handles.  The
environment (`Env`) supplies the outcomes of the external calls the code
makes: session creation (`session.NewSessionWithOptions` / `NewSession`),
`DescribeDeliveryStream`, `firehose.New`, `NewClient`, and the current time.
Observable effects (calls to the remote endpoint, `Client.Exit`, `NewClient`)
are recorded in an event list.
-/

namespace FirehosePool

/-- One nanosecond-count per second, Go's `time.Second`. -/
def timeSecond : Int := 1000000000

/-- `maxConnectionsTries = 3` from the const block. -/
def maxConnectionsTries : Nat := 3

/-- `connectionRetry = 5 * time.Second` from the const block. -/
def connectionRetry : Int := 5 * timeSecond

/-- `connectTimeout = 15 * time.Second` from the const block. -/
def connectTimeout : Int := 15 * timeSecond

/-- `errorsFrame = 10 * time.Second` from the const block. -/
def errorsFrame : Int := 10 * timeSecond

/-- `maxErrors = 10` from the const block. -/
def maxErrors : Nat := 10

/-- Opaque worker-client handle (the supervisor only creates it and calls
`Exit` on it). -/
abbrev Client := Nat

/-- Opaque AWS session handle. -/
abbrev Session := Nat

/-- Configuration fields read by `firehose.go` (`srv.cfg`). -/
structure Config where
  streamName : String
  region : String
  profile : String
  workers : Nat
deriving DecidableEq

/-- The `Server` state mutated by `firehose.go` (fields as used there:
`errors`, `lastError`, `lastConnection`, `reseting`, `exiting`, `failing`,
`clients`, `awsSvc`, `cfg`). -/
structure Server where
  errors : Nat
  lastError : Int
  lastConnection : Int
  reseting : Bool
  exiting : Bool
  failing : Bool
  clients : List Client
  awsSvc : Option Nat
  cfg : Config
deriving DecidableEq

/-- Observable external effects of the supervisor. -/
inductive Event where
  | sessionAttempt : Event
  | describeAttempt : Event
  | exitClient : Client → Event
  | newClient : Client → Event
deriving DecidableEq

/-- Environment: outcomes of the external calls and the clock. -/
structure Env where
  /-- Outcome of `session.NewSessionWithOptions(session.Options{Profile: ...})`. -/
  sessionProfile : Except String Session
  /-- Outcome of `session.NewSession()`. -/
  sessionDefault : Except String Session
  /-- Outcome of `srv.awsSvc.DescribeDeliveryStream(stream)`. -/
  describe : Except String Nat
  /-- Handle produced by `firehose.New(sess, region)`. -/
  firehoseNew : Session → String → Nat
  /-- Handle produced by the k-th `NewClient(srv)` call of a grow loop. -/
  fresh : Nat → Client
  /-- `time.Now()` during this invocation. -/
  now : Int

/-- Session creation, lines 83-87: profile variant when `cfg.Profile != ""`,
default variant otherwise. -/
def sessionSelect (env : Env) (cfg : Config) : Except String Session :=
  if cfg.profile ≠ "" then env.sessionProfile else env.sessionDefault

/-- The shrink loop, lines 130-134:
`for i := currClients; i > srv.cfg.Workers; i-- { k := i - 1; srv.clients[k].Exit(); srv.clients = append(srv.clients[:k], srv.clients[k+1:]...) }`.
Structural recursion on the loop variable `i` counting down. -/
def shrinkLoop : Nat → Nat → List Client → List Client × List Event
  | 0, _, clients => (clients, [])
  | i + 1, target, clients =>
    if i + 1 > target then
      let k := i
      let ev : List Event :=
        match clients.get? k with
        | some c => [Event.exitClient c]
        | none => []
      let clients' := clients.take k ++ clients.drop (k + 1)
      let r := shrinkLoop i target clients'
      (r.1, ev ++ r.2)
    else (clients, [])

/-- The grow loop body, lines 138-140:
`for i := currClients; i < srv.cfg.Workers; i++ { srv.clients = append(srv.clients, NewClient(srv)) }`,
with the remaining iteration count made explicit for structural recursion. -/
def growLoopAux : Nat → Nat → List Client → (Nat → Client) → List Client × List Event
  | 0, _, clients, _ => (clients, [])
  | d + 1, i, clients, fresh =>
    let c := fresh i
    let r := growLoopAux d (i + 1) (clients ++ [c]) fresh
    (r.1, Event.newClient c :: r.2)

/-- The grow loop, running from `i` up to `target`. -/
def growLoop (i target : Nat) (clients : List Client) (fresh : Nat → Client) :
    List Client × List Event :=
  growLoopAux (target - i) i clients fresh

/-- Result of one `clientsReset` invocation: the updated server state, the
observable events, and the returned `error` (`none` models Go's `nil`). -/
structure ResetResult where
  srv : Server
  events : List Event
  err : Option String
deriving DecidableEq

/-- `func (srv *Server) clientsReset() (err error)`, lines 70-145.
The `defer func() { srv.reseting = false }()` is reflected by
`reseting := false` at every return point after line 76. -/
def clientsReset (env : Env) (srv : Server) : ResetResult :=
  if srv.exiting then
    { srv := srv, events := [], err := none }
  else
    let srv1 : Server := { srv with reseting := true }
    match sessionSelect env srv.cfg with
    | Except.error e =>
      { srv := { srv1 with errors := srv1.errors + 1, lastError := env.now, reseting := false },
        events := [Event.sessionAttempt], err := some e }
    | Except.ok sess =>
      let srv2 : Server := { srv1 with awsSvc := some (env.firehoseNew sess srv.cfg.region) }
      match env.describe with
      | Except.error e =>
        { srv := { srv2 with errors := srv2.errors + 1, lastError := env.now, reseting := false },
          events := [Event.sessionAttempt, Event.describeAttempt], err := some e }
      | Except.ok _ =>
        let srv3 : Server :=
          { srv2 with lastConnection := env.now, errors := 0, failing := false }
        let currClients := srv.clients.length
        if currClients = srv.cfg.workers then
          { srv := { srv3 with reseting := false },
            events := [Event.sessionAttempt, Event.describeAttempt], err := none }
        else if currClients > srv.cfg.workers then
          let r := shrinkLoop currClients srv.cfg.workers srv3.clients
          { srv := { srv3 with clients := r.1, reseting := false },
            events := [Event.sessionAttempt, Event.describeAttempt] ++ r.2, err := none }
        else
          let r := growLoop currClients srv.cfg.workers srv3.clients env.fresh
          { srv := { srv3 with clients := r.1, reseting := false },
            events := [Event.sessionAttempt, Event.describeAttempt] ++ r.2, err := none }

/-- `func (srv *Server) failure()`, lines 22-41.  Returns the updated state and
whether `go srv.retry()` was spawned (the spawn is asynchronous: `failure`
itself never runs the retry loop). -/
def failure (now : Int) (srv : Server) : Server × Bool :=
  if srv.reseting || srv.exiting then (srv, false)
  else
    let errs0 := if now - srv.lastError > errorsFrame then 0 else srv.errors
    let errs1 := errs0 + 1
    ({ srv with errors := errs1, lastError := now }, decide (errs1 > maxErrors))

/-- Result of a `retry` run: final state, the sleep durations performed (in
order), the events of all `clientsReset` invocations, and whether the loop
reached a `nil` outcome within the modelled environment steps. -/
structure RetryResult where
  srv : Server
  sleeps : List Int
  events : List Event
  completed : Bool
deriving DecidableEq

/-- The `for` loop of `retry`, lines 54-67, one `Env` per `clientsReset`
attempt; `tries` is the attempt counter. -/
def retryLoop : List Env → Server → Nat → RetryResult
  | [], srv, _ => { srv := srv, sleeps := [], events := [], completed := false }
  | env :: rest, srv, tries =>
    let r := clientsReset env srv
    if r.err = none then
      { srv := r.srv, sleeps := [], events := r.events, completed := true }
    else
      let tries' := tries + 1
      let d := if tries' ≥ maxConnectionsTries then connectionRetry * 2 else connectionRetry
      let rec' := retryLoop rest r.srv tries'
      { srv := rec'.srv, sleeps := d :: rec'.sleeps, events := r.events ++ rec'.events,
        completed := rec'.completed }

/-- `func (srv *Server) retry()`, lines 43-68: bail out if `failing` is already
set, otherwise set `failing = true` and run the loop with `tries = 0`. -/
def retry (envs : List Env) (srv : Server) : RetryResult :=
  if srv.failing then { srv := srv, sleeps := [], events := [], completed := false }
  else retryLoop envs { srv with failing := true } 0

/-- Events that touch the worker pool (a `Client.Exit` or a `NewClient`). -/
def isPoolEvent : Event → Bool
  | Event.exitClient _ => true
  | Event.newClient _ => true
  | _ => false

/-- The pool-touching events of a trace. -/
def poolEvents (evs : List Event) : List Event := evs.filter isPoolEvent


/-! ## Helper lemmas -/

/-- The shrink loop does nothing when the loop counter is already at or below
the target. -/
theorem shrinkLoop_of_le (i target : Nat) (clients : List Client) (h : i ≤ target) :
    shrinkLoop i target clients = (clients, []) := by
  cases i with
  | zero => rfl
  | succ n =>
    have : ¬ (n + 1 > target) := by omega
    simp [shrinkLoop, this]

/-- One iteration of the shrink loop on a list ending in `c` exits `c` and
drops it. -/
theorem shrinkLoop_concat (target : Nat) (cs : List Client) (c : Client)
    (h : target ≤ cs.length) :
    shrinkLoop (cs.length + 1) target (cs ++ [c])
      = ((shrinkLoop cs.length target cs).1,
         Event.exitClient c :: (shrinkLoop cs.length target cs).2) := by
  have hgt : cs.length + 1 > target := by omega
  have hget : (cs ++ [c]).get? cs.length = some c := List.get?_concat_length cs c
  have htake : (cs ++ [c]).take cs.length = cs := by
    rw [List.take_append_of_le_length (le_refl cs.length), List.take_length]
  have hdrop : (cs ++ [c]).drop (cs.length + 1) = [] := by
    have : (cs ++ [c]).length = cs.length + 1 := by simp
    rw [← this, List.drop_length]
  simp only [shrinkLoop, hgt, if_pos, hget, htake, hdrop, List.append_nil,
    List.singleton_append]

/-- Full characterisation of the shrink loop started at the list's length:
the first `target` clients are kept and the rest are exited from the tail
inwards. -/
theorem shrinkLoop_spec (d : Nat) :
    ∀ (clients : List Client) (target : Nat), clients.length = target + d →
    shrinkLoop clients.length target clients
      = (clients.take target, ((clients.drop target).reverse).map Event.exitClient) := by
  induction d with
  | zero =>
    intro clients target h
    rw [shrinkLoop_of_le _ _ _ (by omega)]
    have ht : clients.length = target := by omega
    rw [← ht, List.take_length, List.drop_length]
    simp
  | succ d ih =>
    intro clients target h
    rcases List.eq_nil_or_concat clients with rfl | ⟨cs, c, rfl⟩
    · simp at h; omega
    · rw [List.concat_eq_append] at *
      have hlen : (cs ++ [c]).length = cs.length + 1 := by simp
      have hcs : cs.length = target + d := by simp at h; omega
      rw [hlen, shrinkLoop_concat target cs c (by omega), ih cs target hcs]
      have htake : (cs ++ [c]).take target = cs.take target :=
        List.take_append_of_le_length (by omega)
      have hdrop : (cs ++ [c]).drop target = cs.drop target ++ [c] :=
        List.drop_append_of_le_length (by omega)
      simp [htake, hdrop]

/-- Full characterisation of the grow loop body: it appends one fresh client
per remaining iteration. -/
theorem growLoopAux_spec (d : Nat) :
    ∀ (i : Nat) (clients : List Client) (fresh : Nat → Client),
    growLoopAux d i clients fresh
      = (clients ++ (List.range' i d).map fresh,
         ((List.range' i d).map fresh).map Event.newClient) := by
  induction d with
  | zero => intro i clients fresh; simp [growLoopAux]
  | succ d ih =>
    intro i clients fresh
    rw [growLoopAux, ih (i + 1) (clients ++ [fresh i]) fresh]
    rw [List.range'_succ i d 1]
    simp

/-- A trace made only of `exitClient` events is untouched by the pool filter. -/
theorem poolEvents_exits (l : List Client) :
    poolEvents (l.map Event.exitClient) = l.map Event.exitClient := by
  rw [poolEvents, List.filter_eq_self]
  intro a ha
  rcases List.mem_map.mp ha with ⟨c, _, rfl⟩
  rfl

/-- A trace made only of `newClient` events is untouched by the pool filter. -/
theorem poolEvents_news (l : List Client) :
    poolEvents (l.map Event.newClient) = l.map Event.newClient := by
  rw [poolEvents, List.filter_eq_self]
  intro a ha
  rcases List.mem_map.mp ha with ⟨c, _, rfl⟩
  rfl

/-- `clientsReset` never changes the `exiting` flag. -/
theorem clientsReset_exiting (env : Env) (srv : Server) :
    (clientsReset env srv).srv.exiting = srv.exiting := by
  by_cases hx : srv.exiting = true
  · simp [clientsReset, hx]
  · cases hsess : sessionSelect env srv.cfg with
    | error e => simp [clientsReset, hx, hsess]
    | ok sess =>
      cases hdesc : env.describe with
      | error e => simp [clientsReset, hx, hsess, hdesc]
      | ok v =>
        by_cases h1 : srv.clients.length = srv.cfg.workers
        · simp [clientsReset, hx, hsess, hdesc, h1]
        · by_cases h2 : srv.clients.length > srv.cfg.workers
          · simp [clientsReset, hx, hsess, hdesc, h1, h2]
          · simp [clientsReset, hx, hsess, hdesc, h1, h2]

/-- When `exiting` is false and `clientsReset` returns `nil`, the connection
succeeded and line 119 has cleared `failing`. -/
theorem clientsReset_ok_failing (env : Env) (srv : Server)
    (hx : srv.exiting = false) (hok : (clientsReset env srv).err = none) :
    (clientsReset env srv).srv.failing = false := by
  cases hsess : sessionSelect env srv.cfg with
  | error e => simp [clientsReset, hx, hsess] at hok
  | ok sess =>
    cases hdesc : env.describe with
    | error e => simp [clientsReset, hx, hsess, hdesc] at hok
    | ok v =>
      by_cases h1 : srv.clients.length = srv.cfg.workers
      · simp [clientsReset, hx, hsess, hdesc, h1]
      · by_cases h2 : srv.clients.length > srv.cfg.workers
        · simp [clientsReset, hx, hsess, hdesc, h1, h2]
        · simp [clientsReset, hx, hsess, hdesc, h1, h2]

/-- Every sleep the retry loop performs is `connectionRetry` while the
incremented attempt counter is below `maxConnectionsTries` and
`connectionRetry * 2` from then on. -/
theorem retryLoop_sleeps (envs : List Env) :
    ∀ (srv : Server) (tries j : Nat) (d : Int),
    (retryLoop envs srv tries).sleeps.get? j = some d →
    d = if tries + j + 1 ≥ maxConnectionsTries then connectionRetry * 2
        else connectionRetry := by
  induction envs with
  | nil => intro srv tries j d h; simp [retryLoop] at h
  | cons env rest ih =>
    intro srv tries j d h
    rw [retryLoop] at h
    by_cases herr : (clientsReset env srv).err = none
    · rw [if_pos herr] at h; simp at h
    · rw [if_neg herr] at h
      simp only at h
      cases j with
      | zero =>
        rw [List.get?_cons_zero, Option.some.injEq] at h
        rw [← h]
      | succ j =>
        rw [List.get?_cons_succ] at h
        have := ih (clientsReset env srv).srv (tries + 1) j d h
        rw [this]
        by_cases hk : tries + 1 + j + 1 ≥ maxConnectionsTries
        · rw [if_pos hk, if_pos (by omega)]
        · rw [if_neg hk, if_neg (by omega)]

/-- If the retry loop reaches a `nil` outcome while `exiting` is false, the
final state has `failing` cleared. -/
theorem retryLoop_completed_failing (envs : List Env) :
    ∀ (srv : Server) (tries : Nat), srv.exiting = false →
    (retryLoop envs srv tries).completed = true →
    (retryLoop envs srv tries).srv.failing = false := by
  induction envs with
  | nil => intro srv tries _ h; simp [retryLoop] at h
  | cons env rest ih =>
    intro srv tries hx h
    rw [retryLoop] at h ⊢
    by_cases herr : (clientsReset env srv).err = none
    · rw [if_pos herr]
      exact clientsReset_ok_failing env srv hx herr
    · rw [if_neg herr] at h ⊢
      simp only at h ⊢
      have hx' : (clientsReset env srv).srv.exiting = false := by
        rw [clientsReset_exiting]; exact hx
      exact ih (clientsReset env srv).srv (tries + 1) hx' h

/-! ## Concrete fixtures -/

/-- A configuration with a target of 2 workers and no named profile. -/
def cfgShrink : Config :=
  { streamName := "events"
    region := "eu-west-1"
    profile := ""
    workers := 2 }

/-- The same endpoint with a target of 5 workers. -/
def cfgGrow : Config := { cfgShrink with workers := 5 }

/-- An environment in which both external calls succeed. -/
def envOk : Env :=
  { sessionProfile := Except.ok 1
    sessionDefault := Except.ok 1
    describe := Except.ok 0
    firehoseNew := fun _ _ => 7
    fresh := fun k => 100 + k
    now := 42 }

/-- An environment in which session creation fails. -/
def envSessErr : Env :=
  { envOk with
    sessionProfile := Except.error "session down"
    sessionDefault := Except.error "session down" }

/-- An environment in which the stream-description query fails. -/
def envDescErr : Env := { envOk with describe := Except.error "describe down" }

/-- A server holding 5 workers against a target of 2. -/
def srvShrink : Server :=
  { errors := 3
    lastError := 0
    lastConnection := 0
    reseting := false
    exiting := false
    failing := true
    clients := [0, 1, 2, 3, 4]
    awsSvc := none
    cfg := cfgShrink }

/-- A server holding 2 workers against a target of 5. -/
def srvGrow : Server := { srvShrink with clients := [0, 1], cfg := cfgGrow }

/-- A quiescent server: 2 workers, target 2, not failing. -/
def srvIdle : Server := { srvShrink with clients := [0, 1], failing := false }

/-- The quiescent server after `shutdown()` has set `exiting`. -/
def srvExit : Server := { srvIdle with exiting := true }

/-- A server whose reconnect loop is already active. -/
def srvFailing : Server := { srvIdle with failing := true }

/-! ## Claims -/

/-- C5: if `exiting` is set when `clientsReset` is invoked, it returns `nil`
immediately, performs no external call (no session creation, no stream
description) and leaves the whole server state untouched. -/
theorem clientsReset_exiting_shortcircuit (env : Env) (srv : Server)
    (hx : srv.exiting = true) :
    clientsReset env srv = { srv := srv, events := [], err := none } := by
  simp [clientsReset, hx]

theorem clientsReset_exiting_shortcircuit_wit :
    clientsReset envOk srvExit = { srv := srvExit, events := [], err := none } :=
  clientsReset_exiting_shortcircuit envOk srvExit rfl

/-- C9: when the current worker count already equals the configured target,
`clientsReset` leaves the worker set unchanged and issues no `Exit` and no
`NewClient` call, whatever the environment does. -/
theorem clientsReset_equal_noop (env : Env) (srv : Server)
    (heq : srv.clients.length = srv.cfg.workers) :
    (clientsReset env srv).srv.clients = srv.clients
    ∧ poolEvents (clientsReset env srv).events = [] := by
  by_cases hx : srv.exiting = true
  · simp [clientsReset, hx, poolEvents]
  · cases hsess : sessionSelect env srv.cfg with
    | error e => simp [clientsReset, hx, hsess, poolEvents, isPoolEvent]
    | ok sess =>
      cases hdesc : env.describe with
      | error e => simp [clientsReset, hx, hsess, hdesc, poolEvents, isPoolEvent]
      | ok v => simp [clientsReset, hx, hsess, hdesc, heq, poolEvents, isPoolEvent]

theorem clientsReset_equal_noop_wit :
    (clientsReset envOk srvIdle).srv.clients = srvIdle.clients
    ∧ poolEvents (clientsReset envOk srvIdle).events = [] :=
  clientsReset_equal_noop envOk srvIdle rfl

/-- C6 (amended): every `clientsReset` invocation that returns `nil` while
`exiting` is false leaves the error counter at 0. -/
theorem clientsReset_ok_resets_errors (env : Env) (srv : Server)
    (hx : srv.exiting = false) (hok : (clientsReset env srv).err = none) :
    (clientsReset env srv).srv.errors = 0 := by
  cases hsess : sessionSelect env srv.cfg with
  | error e => simp [clientsReset, hx, hsess] at hok
  | ok sess =>
    cases hdesc : env.describe with
    | error e => simp [clientsReset, hx, hsess, hdesc] at hok
    | ok v =>
      by_cases h1 : srv.clients.length = srv.cfg.workers
      · simp [clientsReset, hx, hsess, hdesc, h1]
      · by_cases h2 : srv.clients.length > srv.cfg.workers
        · simp [clientsReset, hx, hsess, hdesc, h1, h2]
        · simp [clientsReset, hx, hsess, hdesc, h1, h2]

theorem clientsReset_ok_resets_errors_wit :
    (clientsReset envOk srvIdle).srv.errors = 0 :=
  clientsReset_ok_resets_errors envOk srvIdle rfl (by decide)

/-- C6 counterexample: with `exiting` set, `clientsReset` returns `nil`
through the shutdown short-circuit yet the error counter keeps its old
value 3, so "errors = 0 after every nil return" fails as stated. -/
theorem clientsReset_nil_errors_cex :
    (clientsReset envOk { srvExit with errors := 3 }).err = none
    ∧ (clientsReset envOk { srvExit with errors := 3 }).srv.errors = 3
    ∧ (3 : Nat) ≠ 0 := by decide

/-- C3: two consecutive `failure` calls separated by more than `errorsFrame`
(with neither `reseting` nor `exiting` set) leave the error count at exactly
1 after the second call: the stale window is discarded, not accumulated. -/
theorem failure_window_reset (srv : Server) (t1 t2 : Int)
    (h1 : srv.reseting = false) (h2 : srv.exiting = false)
    (hgap : t2 - t1 > errorsFrame) :
    (failure t2 (failure t1 srv).1).1.errors = 1 := by
  simp [failure, h1, h2, hgap]

theorem failure_window_reset_wit :
    (failure (20 * timeSecond) (failure 0 srvIdle).1).1.errors = 1 :=
  failure_window_reset srvIdle 0 (20 * timeSecond) rfl rfl (by decide)

/-- C1 (amended): when the connection succeeds and the current worker count
exceeds the target, `clientsReset` keeps exactly the first
`cfg.workers` workers and exits all the excess workers, highest index first
(for 5 workers against a target of 2 it exits workers 4, 3 and 2, keeping
workers 0 and 1). -/
theorem clientsReset_shrink_tail (env : Env) (srv : Server)
    (hx : srv.exiting = false) (sess : Session)
    (hsess : sessionSelect env srv.cfg = Except.ok sess)
    (v : Nat) (hdesc : env.describe = Except.ok v)
    (hgt : srv.cfg.workers < srv.clients.length) :
    (clientsReset env srv).srv.clients = srv.clients.take srv.cfg.workers
    ∧ poolEvents (clientsReset env srv).events
        = ((srv.clients.drop srv.cfg.workers).reverse).map Event.exitClient
    ∧ (clientsReset env srv).err = none := by
  have h1 : ¬ (srv.clients.length = srv.cfg.workers) := by omega
  have h2 : srv.clients.length > srv.cfg.workers := hgt
  have hs := shrinkLoop_spec (srv.clients.length - srv.cfg.workers) srv.clients
    srv.cfg.workers (by omega)
  simp [clientsReset, hx, hsess, hdesc, h1, h2, hs, poolEvents, List.filter_append,
    poolEvents_exits, isPoolEvent]
  intro a ha
  rcases List.mem_map.mp (List.mem_of_mem_drop ha) with ⟨c, _, rfl⟩
  rfl

theorem clientsReset_shrink_tail_wit :
    (clientsReset envOk srvShrink).srv.clients
      = srvShrink.clients.take srvShrink.cfg.workers
    ∧ poolEvents (clientsReset envOk srvShrink).events
        = ((srvShrink.clients.drop srvShrink.cfg.workers).reverse).map Event.exitClient
    ∧ (clientsReset envOk srvShrink).err = none :=
  clientsReset_shrink_tail envOk srvShrink rfl 1 rfl 0 rfl (by decide)

/-- C1 counterexample: reconciling 5 workers to a target of 2 exits three
workers (indices 4, 3 and 2) and keeps only workers 0 and 1, not the
"workers 4 and 3 exited, workers 0, 1, 2 kept" the claim states. -/
theorem clientsReset_shrink_tail_cex :
    (clientsReset envOk srvShrink).srv.clients = [0, 1]
    ∧ poolEvents (clientsReset envOk srvShrink).events
        = [Event.exitClient 4, Event.exitClient 3, Event.exitClient 2]
    ∧ ¬ ((clientsReset envOk srvShrink).srv.clients = [0, 1, 2])
    ∧ ¬ (poolEvents (clientsReset envOk srvShrink).events
          = [Event.exitClient 4, Event.exitClient 3]) := by decide

/-- C8: when the connection succeeds and the current worker count is below
the target, `clientsReset` appends exactly `target - current` new workers at
the tail and keeps the pre-existing workers unchanged, in order. -/
theorem clientsReset_grow_appends (env : Env) (srv : Server)
    (hx : srv.exiting = false) (sess : Session)
    (hsess : sessionSelect env srv.cfg = Except.ok sess)
    (v : Nat) (hdesc : env.describe = Except.ok v)
    (hlt : srv.clients.length < srv.cfg.workers) :
    (clientsReset env srv).srv.clients
      = srv.clients
        ++ (List.range' srv.clients.length (srv.cfg.workers - srv.clients.length)).map env.fresh
    ∧ ((List.range' srv.clients.length (srv.cfg.workers - srv.clients.length)).map
        env.fresh).length = srv.cfg.workers - srv.clients.length
    ∧ poolEvents (clientsReset env srv).events
        = ((List.range' srv.clients.length (srv.cfg.workers - srv.clients.length)).map
            env.fresh).map Event.newClient
    ∧ (clientsReset env srv).err = none := by
  have h1 : ¬ (srv.clients.length = srv.cfg.workers) := by omega
  have h2 : ¬ (srv.clients.length > srv.cfg.workers) := by omega
  have hg := growLoopAux_spec (srv.cfg.workers - srv.clients.length) srv.clients.length
    srv.clients env.fresh
  simp [clientsReset, growLoop, hx, hsess, hdesc, h1, h2, hg, poolEvents,
    List.filter_append, poolEvents_news, isPoolEvent, List.length_range']
  intro a x _ _ h
  subst h
  rfl

theorem clientsReset_grow_appends_wit :
    (clientsReset envOk srvGrow).srv.clients
      = srvGrow.clients
        ++ (List.range' srvGrow.clients.length
            (srvGrow.cfg.workers - srvGrow.clients.length)).map envOk.fresh
    ∧ ((List.range' srvGrow.clients.length
        (srvGrow.cfg.workers - srvGrow.clients.length)).map envOk.fresh).length
        = srvGrow.cfg.workers - srvGrow.clients.length
    ∧ poolEvents (clientsReset envOk srvGrow).events
        = ((List.range' srvGrow.clients.length
            (srvGrow.cfg.workers - srvGrow.clients.length)).map envOk.fresh).map
            Event.newClient
    ∧ (clientsReset envOk srvGrow).err = none :=
  clientsReset_grow_appends envOk srvGrow rfl 1 rfl 0 rfl (by decide)

/-- C10 (amended): on every error return of `clientsReset` (session or
stream-description failure) the worker set is exactly as on entry and,
besides `errors` (incremented), `lastError` (set to now) and the transient
`reseting` flag, the only other field touched is `awsSvc`, which the
stream-description error path has already reassigned; `failing`,
`lastConnection`, `exiting` and `cfg` are unchanged, and no pool event is
issued. -/
theorem clientsReset_error_frame (env : Env) (srv : Server)
    (hx : srv.exiting = false) (e : String)
    (herr : (clientsReset env srv).err = some e) :
    (clientsReset env srv).srv.clients = srv.clients
    ∧ (clientsReset env srv).srv.errors = srv.errors + 1
    ∧ (clientsReset env srv).srv.lastError = env.now
    ∧ (clientsReset env srv).srv.failing = srv.failing
    ∧ (clientsReset env srv).srv.lastConnection = srv.lastConnection
    ∧ (clientsReset env srv).srv.reseting = false
    ∧ (clientsReset env srv).srv.exiting = srv.exiting
    ∧ (clientsReset env srv).srv.cfg = srv.cfg
    ∧ (∀ e', sessionSelect env srv.cfg = Except.error e' →
        (clientsReset env srv).srv.awsSvc = srv.awsSvc)
    ∧ (∀ s, sessionSelect env srv.cfg = Except.ok s →
        (clientsReset env srv).srv.awsSvc = some (env.firehoseNew s srv.cfg.region))
    ∧ poolEvents (clientsReset env srv).events = [] := by
  cases hsess : sessionSelect env srv.cfg with
  | error e0 =>
    simp [clientsReset, hx, hsess, poolEvents, isPoolEvent]
  | ok sess =>
    cases hdesc : env.describe with
    | error e0 =>
      simp [clientsReset, hx, hsess, hdesc, poolEvents, isPoolEvent]
    | ok v =>
      by_cases h1 : srv.clients.length = srv.cfg.workers
      · simp [clientsReset, hx, hsess, hdesc, h1] at herr
      · by_cases h2 : srv.clients.length > srv.cfg.workers
        · simp [clientsReset, hx, hsess, hdesc, h1, h2] at herr
        · simp [clientsReset, hx, hsess, hdesc, h1, h2] at herr

theorem clientsReset_error_frame_wit :
    (clientsReset envSessErr srvIdle).srv.clients = srvIdle.clients
    ∧ (clientsReset envSessErr srvIdle).srv.errors = srvIdle.errors + 1
    ∧ (clientsReset envSessErr srvIdle).srv.lastError = envSessErr.now
    ∧ (clientsReset envSessErr srvIdle).srv.failing = srvIdle.failing
    ∧ (clientsReset envSessErr srvIdle).srv.lastConnection = srvIdle.lastConnection
    ∧ (clientsReset envSessErr srvIdle).srv.reseting = false
    ∧ (clientsReset envSessErr srvIdle).srv.exiting = srvIdle.exiting
    ∧ (clientsReset envSessErr srvIdle).srv.cfg = srvIdle.cfg
    ∧ (∀ e', sessionSelect envSessErr srvIdle.cfg = Except.error e' →
        (clientsReset envSessErr srvIdle).srv.awsSvc = srvIdle.awsSvc)
    ∧ (∀ s, sessionSelect envSessErr srvIdle.cfg = Except.ok s →
        (clientsReset envSessErr srvIdle).srv.awsSvc
          = some (envSessErr.firehoseNew s srvIdle.cfg.region))
    ∧ poolEvents (clientsReset envSessErr srvIdle).events = [] :=
  clientsReset_error_frame envSessErr srvIdle rfl "session down" (by decide)

/-- C10 counterexample: on the stream-description error path `awsSvc` has
been reassigned (line 97 runs before the failing query), so the error return
touches more state than `errors`, `lastError` and `reseting`. -/
theorem clientsReset_error_frame_cex :
    (clientsReset envDescErr srvIdle).err = some "describe down"
    ∧ srvIdle.awsSvc = none
    ∧ (clientsReset envDescErr srvIdle).srv.awsSvc = some 7
    ∧ ¬ ((clientsReset envDescErr srvIdle).srv.awsSvc = srvIdle.awsSvc) := by decide

/-- C2 (amended): in a `retry` run, the wait after the n-th consecutive
failed attempt (n = j + 1 for the j-th recorded sleep) is `connectionRetry`
while n < `maxConnectionsTries` and `connectionRetry * 2` from the
`maxConnectionsTries`-th attempt on (the code tests `tries >= K`, so the
K-th failure already waits 2R). -/
theorem retry_backoff_tiers (envs : List Env) (srv : Server) (j : Nat) (d : Int)
    (h : (retry envs srv).sleeps.get? j = some d) :
    d = if j + 1 < maxConnectionsTries then connectionRetry
        else connectionRetry * 2 := by
  rw [retry] at h
  by_cases hf : srv.failing = true
  · simp [hf] at h
  · simp only [hf, Bool.false_eq_true, if_false] at h
    rw [retryLoop_sleeps envs { srv with failing := true } 0 j d h]
    by_cases hk : j + 1 < maxConnectionsTries
    · rw [if_neg (by omega), if_pos hk]
    · rw [if_pos (by omega), if_neg hk]

theorem retry_backoff_tiers_wit :
    connectionRetry
      = if 0 + 1 < maxConnectionsTries then connectionRetry
        else connectionRetry * 2 :=
  retry_backoff_tiers [envSessErr, envOk] srvIdle 0 connectionRetry (by decide)

/-- C2 counterexample: a run with three failed attempts sleeps
`connectionRetry * 2` already after the third attempt, although
3 ≤ `maxConnectionsTries`, so "R for every attempt n ≤ K" fails at n = K. -/
theorem retry_backoff_tiers_cex :
    (retry [envSessErr, envSessErr, envSessErr, envOk] srvIdle).sleeps.get? 2
      = some (connectionRetry * 2)
    ∧ 3 ≤ maxConnectionsTries
    ∧ connectionRetry * 2 ≠ connectionRetry := by decide

/-- C4 (amended): a `nil` outcome of `clientsReset` makes the `retry` loop
return at once (no further attempt, no further sleep), and when the run was
entered with `exiting` false the `failing` flag is false after the loop
returns; when the `nil` outcome comes from the `exiting` short-circuit the
flag stays true. -/
theorem retry_nil_terminates (envs : List Env) (srv : Server)
    (h1 : srv.failing = false) (h2 : srv.exiting = false)
    (env : Env) (rest : List Env) (s : Server) (tries : Nat)
    (hnil : (clientsReset env s).err = none) :
    ((retry envs srv).completed = true → (retry envs srv).srv.failing = false)
    ∧ retryLoop (env :: rest) s tries
        = { srv := (clientsReset env s).srv, sleeps := [],
            events := (clientsReset env s).events, completed := true } := by
  constructor
  · intro hc
    rw [retry] at hc ⊢
    simp only [h1, Bool.false_eq_true, if_false] at hc ⊢
    exact retryLoop_completed_failing envs { srv with failing := true } 0 h2 hc
  · rw [retryLoop, if_pos hnil]

theorem retry_nil_terminates_wit :
    ((retry [envOk] srvIdle).completed = true
      → (retry [envOk] srvIdle).srv.failing = false)
    ∧ retryLoop [envOk] srvIdle 0
        = { srv := (clientsReset envOk srvIdle).srv, sleeps := [],
            events := (clientsReset envOk srvIdle).events, completed := true } :=
  retry_nil_terminates [envOk] srvIdle rfl rfl envOk [] srvIdle 0 (by decide)

/-- C4 counterexample: entering `retry` with `exiting` already set makes the
first `clientsReset` return `nil` through the shutdown short-circuit; the
loop terminates but `failing` — set on entry at line 51 and never cleared on
this path — is still true after the run. -/
theorem retry_nil_terminates_cex :
    (retry [envOk] srvExit).completed = true
    ∧ (retry [envOk] srvExit).srv.failing = true := by decide

/-- C7: under the failure detector's guard (neither `reseting` nor
`exiting`), `failure` requests an asynchronous `retry` spawn exactly when the
just-incremented error count exceeds `maxErrors` (the caller returns without
running the loop: the spawn is only requested), and a `retry` entered while
`failing` is already true returns immediately without running any attempt,
so no second concurrent loop starts. -/
theorem failure_trigger_and_guard (now : Int) (srv : Server)
    (h1 : srv.reseting = false) (h2 : srv.exiting = false)
    (envs : List Env) (s : Server) (hs : s.failing = true) :
    ((failure now srv).2 = true ↔ (failure now srv).1.errors > maxErrors)
    ∧ retry envs s = { srv := s, sleeps := [], events := [], completed := false } := by
  constructor
  · simp [failure, h1, h2]
  · simp [retry, hs]

theorem failure_trigger_and_guard_wit :
    ((failure 0 { srvIdle with errors := 10 }).2 = true
      ↔ (failure 0 { srvIdle with errors := 10 }).1.errors > maxErrors)
    ∧ retry [envOk] srvFailing
        = { srv := srvFailing, sleeps := [], events := [], completed := false } :=
  failure_trigger_and_guard 0 { srvIdle with errors := 10 } rfl rfl [envOk]
    srvFailing rfl

end FirehosePool
